import Mathlib

/-!
Shallow embedding of the specter NIF core (Rust sources under
`src/native/specter_nif/src/`): the resource registry (`state.rs`), the
host-facing peer-connection calls and the per-connection actor loop
(`peer_connection/mod.rs`).

Modelling conventions:
* Erlang terms that carry uuids are modelled as `String`.
* The webrtc transport engine is an external collaborator; each engine
  call's outcome is a field of an `EngineConn` oracle record.
* JSON parsing/serialization is an external collaborator; the caller-side
  `serde_json::from_str` calls are modelled as `String → Option _` oracles
  and serialization of engine results as the already-serialized `String`.
* `Mutex::lock` is modelled by a `poisoned` flag on the resource: a
  poisoned lock makes `lock()` return `Err`.  Code that matches on the
  lock result maps that to a `lock_fail` error; code that calls
  `.lock().unwrap()` panics, modelled by the `panicked` outcome.
* `tokio::spawn`-ed sends into a mailbox are modelled by returning the
  list of messages handed to spawned send-tasks; the scheduler that
  decides the order in which those tasks run is modelled explicitly as a
  permutation of the pending sends.
-/

namespace Specter

/-- Opaque uuid strings produced by `gen_uuid` (util.rs). -/
abbrev Id := String

/-- The Erlang atoms used by the NIF surface (atoms.rs), restricted to the
ones the registry and command layer return synchronously. -/
inductive Atom where
  | ok
  | error
  | not_found
  | lock_fail
  | invalid_json
  | invalid_track
  | webrtc_error
  | add_ice_candidate
  | set_local_description
  | set_remote_description
  deriving DecidableEq, Repr

/-- Outcome of one host-facing NIF call: a normal return value, an error
atom, or a panic (`.unwrap()` on a failed operation aborts the call). -/
inductive NifResult (α : Type) where
  | ok (a : α)
  | err (e : Atom)
  | panicked
  deriving DecidableEq, Repr

/-- A `MediaEngine` is an external webrtc value; the model keeps only the
outcomes of the collaborator calls made against it:
`register_default_codecs` (state.rs `new_media_engine`) and
`register_default_interceptors` (state.rs `new_registry`). -/
structure MediaEngine where
  codecs_ok : Bool
  wire_ok : Bool
  deriving DecidableEq, Repr

/-- The interceptor `Registry` value is opaque to this layer. -/
abbrev Registry := Unit

/-- An API is built by `APIBuilder` from a media engine and an interceptor
registry, both taken by value (state.rs `new_api`). -/
structure API where
  media_engine : MediaEngine
  registry : Registry
  deriving DecidableEq, Repr

/-- The `Sender<Msg>` half of a connection's mailbox, opaque to the
registry; only its presence in the map matters. -/
abbrev MailboxSender := Nat

/-- A `TrackLocalStaticSample` handle, opaque to this layer. -/
abbrev Track := String

/-- The subscriber pid captured at `__init__` time. -/
abbrev Pid := String

/-- Config (config.rs): the ice-server url list. -/
structure Config where
  ice_servers : List String
  deriving DecidableEq, Repr

/-! ### Association-list model of the `HashMap<String, _>` fields

`HashMap::insert` replaces any entry under the same key; `get` returns the
entry when present; `remove` deletes and returns it. -/

/-- Model of `HashMap::get`. -/
def mapGet {α : Type} (l : List (Id × α)) (k : Id) : Option α :=
  match l with
  | [] => none
  | (k', v) :: rest => if k' = k then some v else mapGet rest k

/-- Model of `HashMap::insert` (replacing any previous entry under the key). -/
def mapPut {α : Type} (l : List (Id × α)) (k : Id) (v : α) : List (Id × α) :=
  match l with
  | [] => [(k, v)]
  | (k', v') :: rest => if k' = k then (k, v) :: rest else (k', v') :: mapPut rest k v

/-- Model of `HashMap::remove`, dropping the entry under the key. -/
def mapDrop {α : Type} (l : List (Id × α)) (k : Id) : List (Id × α) :=
  match l with
  | [] => []
  | (k', v') :: rest => if k' = k then rest else (k', v') :: mapDrop rest k

/-- The NIF's shared state (state.rs `State`).  The
`track_local_static_samples` table backs `get_track_local_static_sample`,
whose `State` accessor is referenced from `peer_connection/mod.rs` and
`track.rs` but absent from the `state.rs` revision in the sources; it is
modelled from the spec as the registry's TrackHandle kind, a plain keyed
table like the other four. -/
structure State where
  apis : List (Id × API)
  config : Config
  media_engines : List (Id × MediaEngine)
  peer_connections : List (Id × MailboxSender)
  pid : Pid
  registries : List (Id × Registry)
  track_local_static_samples : List (Id × Track)
  deriving DecidableEq, Repr

namespace State

/-- state.rs `add_api`. -/
def add_api (s : State) (uuid : Id) (api : API) : State :=
  { s with apis := mapPut s.apis uuid api }

/-- state.rs `get_api`. -/
def get_api (s : State) (uuid : Id) : Option API :=
  mapGet s.apis uuid

/-- state.rs `add_media_engine`. -/
def add_media_engine (s : State) (uuid : Id) (engine : MediaEngine) : State :=
  { s with media_engines := mapPut s.media_engines uuid engine }

/-- state.rs `get_media_engine`. -/
def get_media_engine (s : State) (uuid : Id) : Option MediaEngine :=
  mapGet s.media_engines uuid

/-- state.rs `get_media_engine_mut`: the same lookup, handing back a
mutable borrow; since `register_default_interceptors` does not alter the
part of the engine this model keeps, mutation is not modelled. -/
def get_media_engine_mut (s : State) (uuid : Id) : Option MediaEngine :=
  mapGet s.media_engines uuid

/-- state.rs `remove_media_engine`. -/
def remove_media_engine (s : State) (uuid : Id) : Option MediaEngine × State :=
  (mapGet s.media_engines uuid,
   { s with media_engines := mapDrop s.media_engines uuid })

/-- state.rs `add_peer_connection`. -/
def add_peer_connection (s : State) (uuid : Id) (pc : MailboxSender) : State :=
  { s with peer_connections := mapPut s.peer_connections uuid pc }

/-- state.rs `get_peer_connection`. -/
def get_peer_connection (s : State) (uuid : Id) : Option MailboxSender :=
  mapGet s.peer_connections uuid

/-- state.rs `remove_peer_connection`. -/
def remove_peer_connection (s : State) (uuid : Id) : Option MailboxSender × State :=
  (mapGet s.peer_connections uuid,
   { s with peer_connections := mapDrop s.peer_connections uuid })

/-- state.rs `add_registry`. -/
def add_registry (s : State) (uuid : Id) (registry : Registry) : State :=
  { s with registries := mapPut s.registries uuid registry }

/-- state.rs `get_registry`. -/
def get_registry (s : State) (uuid : Id) : Option Registry :=
  mapGet s.registries uuid

/-- state.rs `remove_registry`. -/
def remove_registry (s : State) (uuid : Id) : Option Registry × State :=
  (mapGet s.registries uuid,
   { s with registries := mapDrop s.registries uuid })

/-- Model of `get_track_local_static_sample`, the TrackHandle lookup (modelled from
the spec's registry table; see the `State` doc comment). -/
def get_track_local_static_sample (s : State) (uuid : Id) : Option Track :=
  mapGet s.track_local_static_samples uuid

end State

/-- The `ResourceArc<Ref>` handed to every NIF: the state behind a mutex.
`poisoned = true` models a poisoned mutex, on which `lock()` returns
`Err`. -/
structure Resource where
  poisoned : Bool
  state : State
  deriving DecidableEq, Repr

/-! ### Registry NIFs (state.rs)

Each model mirrors the registered NIF of the same name.  A NIF that calls
`gen_uuid()` receives the generated uuid as an explicit argument (uuid
generation is the IdentifierGenerator collaborator). -/

/-- state.rs `get_config` (NIF `config`). -/
def get_config (r : Resource) : NifResult Config :=
  if r.poisoned then .err .lock_fail
  else .ok r.state.config

/-- state.rs `new_media_engine`: build a default engine, register the
default codecs (webrtc collaborator; failure is `webrtc_error`), store it
under a fresh uuid.  `m` is the freshly built `MediaEngine::default()`
oracle and `engine_id` the `gen_uuid()` output. -/
def new_media_engine (r : Resource) (m : MediaEngine) (engine_id : Id) :
    NifResult Id × Resource :=
  if r.poisoned then (.err .lock_fail, r)
  else if !m.codecs_ok then (.err .webrtc_error, r)
  else (.ok engine_id, { r with state := r.state.add_media_engine engine_id m })

/-- state.rs `new_registry`: look up the media engine by mutable borrow
(it is NOT removed), wire the default interceptors against it (webrtc
collaborator; failure is `webrtc_error`), store the new registry under a
fresh uuid. -/
def new_registry (r : Resource) (media_engine_uuid : Id) (registry_id : Id) :
    NifResult Id × Resource :=
  if r.poisoned then (.err .lock_fail, r)
  else
    match r.state.get_media_engine_mut media_engine_uuid with
    | none => (.err .not_found, r)
    | some m =>
      if !m.wire_ok then (.err .webrtc_error, r)
      else (.ok registry_id, { r with state := r.state.add_registry registry_id () })

/-- state.rs `new_api`: remove (consume) the media engine, then remove
(consume) the interceptor registry, build the API from the pair, store it
under a fresh uuid.  Note the engine removal happens before the registry
lookup is checked. -/
def new_api (r : Resource) (media_engine_uuid registry_uuid : Id) (api_id : Id) :
    NifResult Id × Resource :=
  if r.poisoned then (.err .lock_fail, r)
  else
    match r.state.remove_media_engine media_engine_uuid with
    | (none, _) => (.err .not_found, r)
    | (some m, s1) =>
      match s1.remove_registry registry_uuid with
      | (none, s2) => (.err .not_found, { r with state := s2 })
      | (some reg, s2) =>
        (.ok api_id,
         { r with state := s2.add_api api_id { media_engine := m, registry := reg } })

/-- state.rs `media_engine_exists`. -/
def media_engine_exists (r : Resource) (media_engine_uuid : Id) : NifResult Bool :=
  if r.poisoned then .err .lock_fail
  else
    match r.state.get_media_engine media_engine_uuid with
    | none => .ok false
    | some _ => .ok true

/-- state.rs `peer_connection_exists`. -/
def peer_connection_exists (r : Resource) (pc_uuid : Id) : NifResult Bool :=
  if r.poisoned then .err .lock_fail
  else
    match r.state.get_peer_connection pc_uuid with
    | none => .ok false
    | some _ => .ok true

/-- state.rs `registry_exists`. -/
def registry_exists (r : Resource) (registry_uuid : Id) : NifResult Bool :=
  if r.poisoned then .err .lock_fail
  else
    match r.state.get_registry registry_uuid with
    | none => .ok false
    | some _ => .ok true

/-! ### Command/Event protocol (peer_connection/mod.rs) -/

/-- A parsed `RTCIceCandidateInit`, opaque after the caller-side
`serde_json::from_str` succeeded. -/
abbrev CandidateInit := String

/-- A parsed `RTCSessionDescription`, opaque after the caller-side
`serde_json::from_str` succeeded. -/
abbrev SessionDescription := String

/-- Model of `RTCOfferOptions`. -/
structure OfferOptions where
  ice_restart : Bool
  voice_activity_detection : Bool
  deriving DecidableEq, Repr

/-- Model of `RTCAnswerOptions`. -/
structure AnswerOptions where
  voice_activity_detection : Bool
  deriving DecidableEq, Repr

/-- mod.rs `Msg`: the mailbox commands of one peer-connection actor. -/
inductive Msg where
  | add_ice_candidate (candidate : CandidateInit)
  | add_track (track_uuid : Id) (track : Track)
  | create_answer (opts : Option AnswerOptions)
  | create_data_channel (label : String)
  | create_offer (opts : Option OfferOptions)
  | get_current_local_description
  | get_current_remote_description
  | get_local_description
  | get_pending_local_description
  | get_pending_remote_description
  | get_remote_description
  | get_stats
  | set_local_description (session : SessionDescription)
  | set_remote_description (session : SessionDescription)
  | ice_connection_state
  | ice_gathering_state
  | signaling_state
  | connection_state
  deriving DecidableEq, Repr

/-- The messages `send_and_clear` delivers to the subscriber pid.  Each
constructor is one tuple shape sent by mod.rs; descriptions carry
`Option String` (`nil` for an absent description).  Connection/ICE/
signaling states are carried as the already-mapped peer_conn_state
atom text. -/
inductive Event where
  | peer_connection_error (id : Id)
  | peer_connection_ready (id : Id)
  | peer_connection_closed (id : Id)
  | ice_candidate (id : Id) (json : String)
  | candidate_error (id : Id) (detail : String)
  | ok_tuple (id : Id) (tag : Atom)
  | rtp_sender (id : Id) (track_uuid : Id) (sender_uuid : Id)
  | answer (id : Id) (json : String)
  | answer_error (id : Id) (detail : String)
  | offer (id : Id) (json : String)
  | offer_error (id : Id) (detail : String)
  | data_channel_created (id : Id)
  | current_local_description (id : Id) (desc : Option String)
  | local_description (id : Id) (desc : Option String)
  | pending_local_description (id : Id) (desc : Option String)
  | current_remote_description (id : Id) (desc : Option String)
  | remote_description (id : Id) (desc : Option String)
  | pending_remote_description (id : Id) (desc : Option String)
  | stats (id : Id) (json : String)
  | invalid_local_description (id : Id) (detail : String)
  | invalid_remote_description (id : Id) (detail : String)
  | ice_connection_state (id : Id) (value : String)
  | ice_gathering_state (id : Id) (value : String)
  | signaling_state (id : Id) (value : String)
  | connection_state (id : Id) (value : String)
  deriving DecidableEq, Repr

/-- A created `RTCRtpSender` handle, opaque to this layer. -/
abbrev RtpSenderHandle := String

/-- The native `RTCPeerConnection` handle as the transport-engine
collaborator: one oracle per engine call the actor loop makes.  Fallible
calls yield `Except String _` with the error's display string; the
serialized forms of SDP/stats results are carried as the `String` the
actor would obtain from `serde_json::to_string`. -/
structure EngineConn where
  add_ice_candidate_res : CandidateInit → Except String Unit
  add_track_res : Track → Except String RtpSenderHandle
  create_answer_res : Option AnswerOptions → Except String SessionDescription
  create_data_channel_res : String → Except String Unit
  create_offer_res : Option OfferOptions → Except String SessionDescription
  current_local_description_res : Option SessionDescription
  local_description_res : Option SessionDescription
  pending_local_description_res : Option SessionDescription
  current_remote_description_res : Option SessionDescription
  remote_description_res : Option SessionDescription
  pending_remote_description_res : Option SessionDescription
  get_stats_res : String
  set_local_description_res : SessionDescription → Except String Unit
  set_remote_description_res : SessionDescription → Except String Unit
  ice_connection_state_res : String
  ice_gathering_state_res : String
  signaling_state_res : String
  connection_state_res : String

/-- Result of the actor handling one mailbox message: the subscriber
message it sends plus the updated `rtp_senders` table, or a panic.  The
only panic source in the loop body is the `.unwrap()` on the engine's
`add_track` result. -/
inductive StepResult where
  | emitted (e : Event) (rtp_senders : List (Id × RtpSenderHandle))
  | panicked
  deriving DecidableEq, Repr

/-- One turn of the mod.rs receive loop on message `m`:
match the engine call's result into the subscriber message the loop body
sends.  `sender_uuid` is the `gen_uuid()` output consumed when the
message is an `AddTrack`. -/
def handle_msg (pc : EngineConn) (pc_uuid : Id) (sender_uuid : Id)
    (rtp_senders : List (Id × RtpSenderHandle)) : Msg → StepResult
  | .add_ice_candidate candidate =>
    match pc.add_ice_candidate_res candidate with
    | .error err => .emitted (.candidate_error pc_uuid err) rtp_senders
    | .ok () => .emitted (.ok_tuple pc_uuid .add_ice_candidate) rtp_senders
  | .add_track track_uuid track =>
    -- `let sender = lock.add_track(track).await.unwrap();`
    match pc.add_track_res track with
    | .error _ => .panicked
    | .ok sender =>
      .emitted (.rtp_sender pc_uuid track_uuid sender_uuid)
        (mapPut rtp_senders sender_uuid sender)
  | .create_answer opts =>
    match pc.create_answer_res opts with
    | .error err => .emitted (.answer_error pc_uuid err) rtp_senders
    | .ok a => .emitted (.answer pc_uuid a) rtp_senders
  | .create_data_channel label =>
    match pc.create_data_channel_res label with
    | .error err => .emitted (.offer_error pc_uuid err) rtp_senders
    | .ok () => .emitted (.data_channel_created pc_uuid) rtp_senders
  | .create_offer opts =>
    match pc.create_offer_res opts with
    | .error err => .emitted (.offer_error pc_uuid err) rtp_senders
    | .ok o => .emitted (.offer pc_uuid o) rtp_senders
  | .get_current_local_description =>
    .emitted (.current_local_description pc_uuid pc.current_local_description_res) rtp_senders
  | .get_local_description =>
    .emitted (.local_description pc_uuid pc.local_description_res) rtp_senders
  | .get_pending_local_description =>
    .emitted (.pending_local_description pc_uuid pc.pending_local_description_res) rtp_senders
  | .get_current_remote_description =>
    .emitted (.current_remote_description pc_uuid pc.current_remote_description_res) rtp_senders
  | .get_remote_description =>
    .emitted (.remote_description pc_uuid pc.remote_description_res) rtp_senders
  | .get_pending_remote_description =>
    .emitted (.pending_remote_description pc_uuid pc.pending_remote_description_res) rtp_senders
  | .get_stats =>
    .emitted (.stats pc_uuid pc.get_stats_res) rtp_senders
  | .set_local_description session =>
    match pc.set_local_description_res session with
    | .error err => .emitted (.invalid_local_description pc_uuid err) rtp_senders
    | .ok () => .emitted (.ok_tuple pc_uuid .set_local_description) rtp_senders
  | .set_remote_description session =>
    match pc.set_remote_description_res session with
    | .error err => .emitted (.invalid_remote_description pc_uuid err) rtp_senders
    | .ok () => .emitted (.ok_tuple pc_uuid .set_remote_description) rtp_senders
  | .ice_connection_state =>
    .emitted (.ice_connection_state pc_uuid pc.ice_connection_state_res) rtp_senders
  | .ice_gathering_state =>
    .emitted (.ice_gathering_state pc_uuid pc.ice_gathering_state_res) rtp_senders
  | .signaling_state =>
    .emitted (.signaling_state pc_uuid pc.signaling_state_res) rtp_senders
  | .connection_state =>
    .emitted (.connection_state pc_uuid pc.connection_state_res) rtp_senders

/-- The mod.rs receive loop over the whole mailbox content, as the
ordered list of messages the mailbox will ever yield.  `supply k` is the
fresh uuid `gen_uuid()` would return at the loop's `k`-th turn.  Returns
the subscriber messages sent, in order, and whether the loop reached
end-of-stream normally: on `None` it breaks and sends the terminal
`peer_connection_closed`; a panic aborts the task with no further
message. -/
def run_loop (pc : EngineConn) (pc_uuid : Id) (supply : Nat → Id) (k : Nat)
    (rtp_senders : List (Id × RtpSenderHandle)) :
    List Msg → List Event × Bool
  | [] => ([.peer_connection_closed pc_uuid], true)
  | m :: rest =>
    match handle_msg pc pc_uuid (supply k) rtp_senders m with
    | .panicked => ([], false)
    | .emitted e rtp_senders' =>
      let turns := run_loop pc pc_uuid supply (k + 1) rtp_senders' rest
      (e :: turns.1, turns.2)

/-- The subscriber message of one loop turn, `none` when the turn
panicked. -/
def emitted_event : StepResult → Option Event
  | .emitted e _ => some e
  | .panicked => none

/-- The outcome message of a single command: the emitted event depends
only on the engine oracle, the connection uuid, the fresh uuid of the
turn and the message, never on the `rtp_senders` accumulator. -/
def step_event (pc : EngineConn) (pc_uuid sender_uuid : Id) (m : Msg) : Option Event :=
  emitted_event (handle_msg pc pc_uuid sender_uuid [] m)

/-- Number of terminal `peer_connection_closed` messages for `uuid` in a
subscriber message list. -/
def count_closed (uuid : Id) (es : List Event) : Nat :=
  (es.filter (fun e => e = .peer_connection_closed uuid)).length

/-! ### Host-facing peer-connection NIFs (peer_connection/mod.rs)

A command-issuing NIF returns its synchronous result together with the
list of messages it hands to a spawned send-task (empty when it returns
an error before spawning, a singleton otherwise).  The registry state is
not mutated by any of them except `close`. -/

/-- mod.rs `new` (NIF `new_peer_connection`).  The lock is taken with
`.unwrap()`: a poisoned mutex panics instead of reporting `lock_fail`.
Returns whether the connection task was spawned; on `not_found` the
`gen_uuid()` call is never reached, so no id is allocated. -/
def new_peer_connection (r : Resource) (api_uuid : Id) (uuid : Id) :
    NifResult Id × Bool :=
  if r.poisoned then (.panicked, false)
  else
    match r.state.get_api api_uuid with
    | none => (.err .not_found, false)
    | some _ => (.ok uuid, true)

/-- mod.rs `close` (NIF `close_peer_connection`): pop the mailbox sender
out of the registry so it drops. -/
def close (r : Resource) (pc_uuid : Id) : NifResult Unit × Resource :=
  if r.poisoned then (.err .lock_fail, r)
  else
    match r.state.remove_peer_connection pc_uuid with
    | (none, _) => (.err .not_found, r)
    | (some _, s) => (.ok (), { r with state := s })

/-- mod.rs `add_ice_candidate`: look the sender up, parse the candidate
JSON (`parse_candidate` is the `serde_json::from_str` collaborator),
then spawn the send. -/
def add_ice_candidate (r : Resource) (pc_uuid : Id) (candidate : String)
    (parse_candidate : String → Option CandidateInit) :
    NifResult Unit × List Msg :=
  if r.poisoned then (.err .lock_fail, [])
  else
    match r.state.get_peer_connection pc_uuid with
    | none => (.err .not_found, [])
    | some _ =>
      match parse_candidate candidate with
      | none => (.err .invalid_json, [])
      | some ice_candidate => (.ok (), [.add_ice_candidate ice_candidate])

/-- mod.rs `add_track`: look the sender up, then the track handle;
a missing track is `invalid_track`. -/
def add_track (r : Resource) (pc_uuid : Id) (track_uuid : Id) :
    NifResult Unit × List Msg :=
  if r.poisoned then (.err .lock_fail, [])
  else
    match r.state.get_peer_connection pc_uuid with
    | none => (.err .not_found, [])
    | some _ =>
      match r.state.get_track_local_static_sample track_uuid with
      | none => (.err .invalid_track, [])
      | some track => (.ok (), [.add_track track_uuid track])

/-- mod.rs `create_answer`. -/
def create_answer (r : Resource) (pc_uuid : Id) (voice_activity_detection : Bool) :
    NifResult Unit × List Msg :=
  if r.poisoned then (.err .lock_fail, [])
  else
    match r.state.get_peer_connection pc_uuid with
    | none => (.err .not_found, [])
    | some _ =>
      (.ok (), [.create_answer (some { voice_activity_detection })])

/-- mod.rs `create_data_channel`. -/
def create_data_channel (r : Resource) (pc_uuid : Id) (label : String) :
    NifResult Unit × List Msg :=
  if r.poisoned then (.err .lock_fail, [])
  else
    match r.state.get_peer_connection pc_uuid with
    | none => (.err .not_found, [])
    | some _ => (.ok (), [.create_data_channel label])

/-- mod.rs `create_offer`. -/
def create_offer (r : Resource) (pc_uuid : Id)
    (voice_activity_detection ice_restart : Bool) : NifResult Unit × List Msg :=
  if r.poisoned then (.err .lock_fail, [])
  else
    match r.state.get_peer_connection pc_uuid with
    | none => (.err .not_found, [])
    | some _ =>
      (.ok (), [.create_offer (some { ice_restart, voice_activity_detection })])

/-- The shared shape of the six description getters, `get_stats` and the
four state queries: look the sender up, then spawn a send of the fixed
message. -/
def send_plain (r : Resource) (pc_uuid : Id) (m : Msg) : NifResult Unit × List Msg :=
  if r.poisoned then (.err .lock_fail, [])
  else
    match r.state.get_peer_connection pc_uuid with
    | none => (.err .not_found, [])
    | some _ => (.ok (), [m])

/-- mod.rs `get_current_local_description` (NIF `current_local_description`). -/
def get_current_local_description (r : Resource) (pc_uuid : Id) :
    NifResult Unit × List Msg :=
  send_plain r pc_uuid .get_current_local_description

/-- mod.rs `get_current_remote_description` (NIF `current_remote_description`). -/
def get_current_remote_description (r : Resource) (pc_uuid : Id) :
    NifResult Unit × List Msg :=
  send_plain r pc_uuid .get_current_remote_description

/-- mod.rs `get_local_description` (NIF `local_description`). -/
def get_local_description (r : Resource) (pc_uuid : Id) : NifResult Unit × List Msg :=
  send_plain r pc_uuid .get_local_description

/-- mod.rs `get_remote_description` (NIF `remote_description`). -/
def get_remote_description (r : Resource) (pc_uuid : Id) : NifResult Unit × List Msg :=
  send_plain r pc_uuid .get_remote_description

/-- mod.rs `get_pending_local_description` (NIF `pending_local_description`). -/
def get_pending_local_description (r : Resource) (pc_uuid : Id) :
    NifResult Unit × List Msg :=
  send_plain r pc_uuid .get_pending_local_description

/-- mod.rs `get_pending_remote_description` (NIF `pending_remote_description`). -/
def get_pending_remote_description (r : Resource) (pc_uuid : Id) :
    NifResult Unit × List Msg :=
  send_plain r pc_uuid .get_pending_remote_description

/-- mod.rs `get_stats`. -/
def get_stats (r : Resource) (pc_uuid : Id) : NifResult Unit × List Msg :=
  send_plain r pc_uuid .get_stats

/-- mod.rs `set_local_description`: look the sender up, then parse the
SDP JSON (`parse_session` is the `serde_json::from_str` collaborator). -/
def set_local_description (r : Resource) (pc_uuid : Id) (sdp : String)
    (parse_session : String → Option SessionDescription) :
    NifResult Unit × List Msg :=
  if r.poisoned then (.err .lock_fail, [])
  else
    match r.state.get_peer_connection pc_uuid with
    | none => (.err .not_found, [])
    | some _ =>
      match parse_session sdp with
      | none => (.err .invalid_json, [])
      | some session => (.ok (), [.set_local_description session])

/-- mod.rs `set_remote_description`: look the sender up, then parse the
SDP JSON. -/
def set_remote_description (r : Resource) (pc_uuid : Id) (sdp : String)
    (parse_session : String → Option SessionDescription) :
    NifResult Unit × List Msg :=
  if r.poisoned then (.err .lock_fail, [])
  else
    match r.state.get_peer_connection pc_uuid with
    | none => (.err .not_found, [])
    | some _ =>
      match parse_session sdp with
      | none => (.err .invalid_json, [])
      | some session => (.ok (), [.set_remote_description session])

/-- mod.rs `ice_connection_state`. -/
def ice_connection_state (r : Resource) (pc_uuid : Id) : NifResult Unit × List Msg :=
  send_plain r pc_uuid .ice_connection_state

/-- mod.rs `ice_gathering_state`. -/
def ice_gathering_state (r : Resource) (pc_uuid : Id) : NifResult Unit × List Msg :=
  send_plain r pc_uuid .ice_gathering_state

/-- mod.rs `signaling_state`. -/
def signaling_state (r : Resource) (pc_uuid : Id) : NifResult Unit × List Msg :=
  send_plain r pc_uuid .signaling_state

/-- mod.rs `connection_state`. -/
def connection_state (r : Resource) (pc_uuid : Id) : NifResult Unit × List Msg :=
  send_plain r pc_uuid .connection_state

/-! ### The spawned connection task (mod.rs `spawn_rtc_peer_connection`) -/

/-- The task spawned by `new_peer_connection`: build the native connection
(`build_res` is the engine-collaborator outcome of
`api.new_peer_connection(config)`), on failure send
`peer_connection_error` and return without registering; on success
register the mailbox sender `tx`, send `peer_connection_ready`, install
the candidate observer and run the receive loop over the messages the
mailbox will yield.  The task takes the lock with `.unwrap()`, so a
poisoned mutex panics it before any send.  Returns the registry state
after registration, the subscriber messages the task itself sends in
order, and whether the task ran to completion.  (The unsolicited
`ice_candidate` messages of the observer arrive on their own schedule and
are not part of this ordered output.) -/
def spawn_rtc_peer_connection (build_res : Option EngineConn) (r : Resource)
    (uuid : Id) (tx : MailboxSender) (supply : Nat → Id) (mailbox : List Msg) :
    Resource × List Event × Bool :=
  if r.poisoned then (r, [], false)
  else
    match build_res with
    | none => (r, [.peer_connection_error uuid], true)
    | some pc =>
      let r' := { r with state := r.state.add_peer_connection uuid tx }
      let turns := run_loop pc uuid supply 0 [] mailbox
      (r', .peer_connection_ready uuid :: turns.1, turns.2)

/-! ### Delivery scheduling

Each command-issuing NIF hands its message to its own
`task::spawn`-ed send-task.  The runtime may run those independent tasks
in any order, so the order in which the pending sends reach the mailbox
is an arbitrary permutation of submission order. -/

/-- A schedule for `n` pending send-tasks: the order, by submission index,
in which the runtime happens to run them. -/
def valid_schedule (sched : List Nat) (n : Nat) : Prop :=
  sched.Perm (List.range n)

/-- The mailbox content resulting from running the pending send-tasks in
schedule order. -/
def deliver (pending : List Msg) (sched : List Nat) : List Msg :=
  sched.filterMap fun i => pending.get? i

/-! ### Concrete fixtures for evaluating the model -/

/-- The configuration of the spec's end-to-end scenario. -/
def base_config : Config := { ice_servers := ["stun:stun.example.org:19302"] }

/-- A freshly initialized state, as `__init__` builds it. -/
def base_state : State where
  apis := []
  config := base_config
  media_engines := []
  peer_connections := []
  pid := "subscriber"
  registries := []
  track_local_static_samples := []

/-- A transport-engine handle on which every engine call succeeds. -/
def ok_engine : EngineConn where
  add_ice_candidate_res := fun _ => .ok ()
  add_track_res := fun _ => .ok "native-sender"
  create_answer_res := fun _ => .ok "answer-json"
  create_data_channel_res := fun _ => .ok ()
  create_offer_res := fun _ => .ok "offer-json"
  current_local_description_res := none
  local_description_res := none
  pending_local_description_res := none
  current_remote_description_res := none
  remote_description_res := none
  pending_remote_description_res := none
  get_stats_res := "stats-json"
  set_local_description_res := fun _ => .ok ()
  set_remote_description_res := fun _ => .ok ()
  ice_connection_state_res := "new"
  ice_gathering_state_res := "new"
  signaling_state_res := "stable"
  connection_state_res := "new"

/-- A transport-engine handle whose `add_track` call fails. -/
def track_fail_engine : EngineConn :=
  { ok_engine with add_track_res := fun _ => .error "add_track failed" }

/-- A concrete `gen_uuid` supply for the loop's AddTrack turns. -/
def uuid_supply : Nat → Id := fun k => "sender-" ++ toString k

/-- A healthy resource holding one ready connection `"c1"`. -/
def ready_resource : Resource :=
  { poisoned := false,
    state := { base_state with peer_connections := [("c1", 0)] } }

/-- A resource whose mutex is poisoned. -/
def poisoned_resource : Resource :=
  { poisoned := true, state := base_state }

/-- A healthy resource over a freshly initialized state. -/
def fresh_resource : Resource :=
  { poisoned := false, state := base_state }

/-- A media engine whose collaborator calls all succeed. -/
def good_engine : MediaEngine := { codecs_ok := true, wire_ok := true }

/-- A healthy resource holding one media engine `"m"` and one interceptor
registry `"r0"`. -/
def staged_resource : Resource :=
  { poisoned := false,
    state := { base_state with
                media_engines := [("m", good_engine)],
                registries := [("r0", ())] } }

/-- A healthy resource holding only the media engine `"m"`. -/
def engine_only_resource : Resource :=
  { poisoned := false,
    state := { base_state with media_engines := [("m", good_engine)] } }

/-! ### Helper lemmas about the map model and the receive loop -/

theorem mapGet_mapPut_self {α : Type} (l : List (Id × α)) (k : Id) (v : α) :
    mapGet (mapPut l k v) k = some v := by
  induction l with
  | nil => simp [mapPut, mapGet]
  | cons hd tl ih =>
    obtain ⟨k', v'⟩ := hd
    by_cases h : k' = k <;> simp [mapPut, mapGet, h, ih]

theorem mapGet_eq_none_of_not_mem {α : Type} (l : List (Id × α)) (k : Id)
    (h : k ∉ l.map Prod.fst) : mapGet l k = none := by
  induction l with
  | nil => rfl
  | cons hd tl ih =>
    obtain ⟨k', v'⟩ := hd
    simp only [List.map_cons, List.mem_cons] at h
    push_neg at h
    have hne : ¬ k' = k := fun hk => h.1 hk.symm
    simp [mapGet, hne, ih h.2]

theorem mapGet_mapDrop_self {α : Type} (l : List (Id × α)) (k : Id)
    (h : (l.map Prod.fst).Nodup) : mapGet (mapDrop l k) k = none := by
  induction l with
  | nil => rfl
  | cons hd tl ih =>
    obtain ⟨k', v'⟩ := hd
    simp only [List.map_cons, List.nodup_cons] at h
    by_cases hk : k' = k
    · subst hk
      simpa [mapDrop] using mapGet_eq_none_of_not_mem tl k' h.1
    · simp [mapDrop, mapGet, hk, ih h.2]

theorem emitted_event_senders (pc : EngineConn) (uuid su : Id)
    (s1 s2 : List (Id × RtpSenderHandle)) (m : Msg) :
    emitted_event (handle_msg pc uuid su s1 m)
      = emitted_event (handle_msg pc uuid su s2 m) := by
  cases m <;>
    first
      | rfl
      | (dsimp only [handle_msg]; split <;> rfl)

theorem step_event_ne_closed (pc : EngineConn) (uuid su u : Id) (m : Msg) :
    step_event pc uuid su m ≠ some (.peer_connection_closed u) := by
  cases m <;> intro h <;>
    dsimp only [step_event, handle_msg] at h <;>
    first
      | (split at h <;> simp_all [emitted_event])
      | simp [emitted_event] at h

theorem handle_msg_panicked (pc : EngineConn) (uuid su : Id)
    (senders : List (Id × RtpSenderHandle)) (m : Msg)
    (h : handle_msg pc uuid su senders m = .panicked) :
    ∃ tu t err, m = .add_track tu t ∧ pc.add_track_res t = .error err := by
  cases m
  case add_track tu t =>
    dsimp only [handle_msg] at h
    split at h
    · rename_i err heq
      exact ⟨tu, t, err, rfl, heq⟩
    · simp at h
  all_goals
    dsimp only [handle_msg] at h
    first
      | (split at h <;> simp at h)
      | simp at h

theorem run_loop_done (pc : EngineConn) (uuid : Id) (supply : Nat → Id)
    (hok : ∀ t, ∃ s, pc.add_track_res t = .ok s) :
    ∀ (msgs : List Msg) (k : Nat) (senders : List (Id × RtpSenderHandle)),
      (run_loop pc uuid supply k senders msgs).2 = true := by
  intro msgs
  induction msgs with
  | nil => intro k senders; rfl
  | cons m rest ih =>
    intro k senders
    dsimp only [run_loop]
    cases hm : handle_msg pc uuid (supply k) senders m with
    | panicked =>
      obtain ⟨tu, t, err, _, herr⟩ := handle_msg_panicked _ _ _ _ _ hm
      obtain ⟨s, hs⟩ := hok t
      rw [hs] at herr
      simp at herr
    | emitted e s' => exact ih (k + 1) s'

theorem run_loop_length (pc : EngineConn) (uuid : Id) (supply : Nat → Id) :
    ∀ (msgs : List Msg) (k : Nat) (senders : List (Id × RtpSenderHandle)),
      (run_loop pc uuid supply k senders msgs).2 = true →
      (run_loop pc uuid supply k senders msgs).1.length = msgs.length + 1 := by
  intro msgs
  induction msgs with
  | nil => intro k senders _; rfl
  | cons m rest ih =>
    intro k senders h
    dsimp only [run_loop] at h ⊢
    cases hm : handle_msg pc uuid (supply k) senders m with
    | panicked => rw [hm] at h; simp at h
    | emitted e s' =>
      rw [hm] at h
      dsimp only at h ⊢
      simp [ih (k + 1) s' h]

theorem run_loop_get (pc : EngineConn) (uuid : Id) (supply : Nat → Id) :
    ∀ (msgs : List Msg) (k0 : Nat) (senders : List (Id × RtpSenderHandle)),
      (run_loop pc uuid supply k0 senders msgs).2 = true →
      ∀ i, i < msgs.length →
        (run_loop pc uuid supply k0 senders msgs).1.get? i
          = (msgs.get? i).bind (step_event pc uuid (supply (k0 + i))) := by
  intro msgs
  induction msgs with
  | nil => intro k0 senders _ i hi; simp at hi
  | cons m rest ih =>
    intro k0 senders h i hi
    dsimp only [run_loop] at h ⊢
    cases hm : handle_msg pc uuid (supply k0) senders m with
    | panicked => rw [hm] at h; simp at h
    | emitted e s' =>
      rw [hm] at h
      dsimp only at h ⊢
      cases i with
      | zero =>
        have he : step_event pc uuid (supply k0) m = some e := by
          have hsend := emitted_event_senders pc uuid (supply k0) [] senders m
          rw [hm] at hsend
          simpa [step_event, emitted_event] using hsend
        simp [he]
      | succ i =>
        have hlt : i < rest.length := by
          simpa [Nat.succ_lt_succ_iff] using hi
        have hrec := ih (k0 + 1) s' h i hlt
        have harith : k0 + 1 + i = k0 + (i + 1) := by omega
        rw [List.get?_cons_succ, List.get?_cons_succ, hrec, harith]

theorem run_loop_get_closed (pc : EngineConn) (uuid : Id) (supply : Nat → Id) :
    ∀ (msgs : List Msg) (k : Nat) (senders : List (Id × RtpSenderHandle)),
      (run_loop pc uuid supply k senders msgs).2 = true →
      (run_loop pc uuid supply k senders msgs).1.get? msgs.length
        = some (.peer_connection_closed uuid) := by
  intro msgs
  induction msgs with
  | nil => intro k senders _; rfl
  | cons m rest ih =>
    intro k senders h
    dsimp only [run_loop] at h ⊢
    cases hm : handle_msg pc uuid (supply k) senders m with
    | panicked => rw [hm] at h; simp at h
    | emitted e s' =>
      rw [hm] at h
      dsimp only at h ⊢
      simpa using ih (k + 1) s' h

theorem run_loop_count_closed (pc : EngineConn) (uuid : Id) (supply : Nat → Id) :
    ∀ (msgs : List Msg) (k : Nat) (senders : List (Id × RtpSenderHandle)),
      count_closed uuid (run_loop pc uuid supply k senders msgs).1
        = if (run_loop pc uuid supply k senders msgs).2 = true then 1 else 0 := by
  intro msgs
  induction msgs with
  | nil => intro k senders; simp [run_loop, count_closed]
  | cons m rest ih =>
    intro k senders
    dsimp only [run_loop]
    cases hm : handle_msg pc uuid (supply k) senders m with
    | panicked => simp [count_closed]
    | emitted e s' =>
      dsimp only
      have hene : ¬ (e = Event.peer_connection_closed uuid) := by
        intro hcontra
        apply step_event_ne_closed pc uuid (supply k) uuid m
        have hsend := emitted_event_senders pc uuid (supply k) [] senders m
        rw [hm] at hsend
        rw [step_event, hsend, emitted_event, hcontra]
      simp [count_closed, List.filter_cons, hene] at ih ⊢
      exact ih (k + 1) s'

theorem deliver_range (l : List Msg) : deliver l (List.range l.length) = l := by
  induction l with
  | nil => rfl
  | cons m rest ih =>
    simp only [deliver, List.length_cons, List.range_succ_eq_map, List.filterMap_cons,
      List.get?_cons_zero, List.filterMap_map]
    have hcomp : ((fun i => (m :: rest).get? i) ∘ Nat.succ) = fun i => rest.get? i := by
      funext i
      simp
    rw [hcomp]
    simpa [deliver] using ih

/-! ### Claim theorems -/

/-- C1, counterexample: it is not the case that every engine call result
in the Actor loop is pattern-matched into an Event with the loop
surviving.  With an engine whose `add_track` fails, a mailbox holding an
AddTrack command followed by a CreateOffer command makes the loop panic
on the AddTrack `.unwrap()`: the run ends abnormally (`false`), no
failure Event is sent for the AddTrack, and the queued CreateOffer is
never processed — the loop did not continue accepting commands. -/
theorem C1_counterexample :
    run_loop track_fail_engine "c1" uuid_supply 0 []
        [.add_track "t1" "trk", .create_offer none]
      = ([], false) := by
  rfl

/-- C1 (amended): every engine call result except AddTrack's is
pattern-matched into a success or failure Event — a turn on any
non-AddTrack command never panics, for any engine outcome — and whenever
the engine's `add_track` succeeds for every track, the loop survives the
whole mailbox, emitting exactly one Event per command plus the terminal
closed Event.  The AddTrack engine result, however, is unwrapped, so an
`add_track` engine error panics the Actor task and aborts the loop
(see the counterexample). -/
theorem C1_amended_loop_survives (pc q : EngineConn) (pc_uuid q_uuid su : Id)
    (supply : Nat → Id) (msgs : List Msg)
    (senders : List (Id × RtpSenderHandle)) (m : Msg)
    (hok : ∀ t, ∃ s, pc.add_track_res t = .ok s)
    (hnt : ∀ tu t, m ≠ .add_track tu t) :
    (run_loop pc pc_uuid supply 0 [] msgs).2 = true ∧
    (run_loop pc pc_uuid supply 0 [] msgs).1.length = msgs.length + 1 ∧
    handle_msg q q_uuid su senders m ≠ .panicked := by
  have hdone := run_loop_done pc pc_uuid supply hok msgs 0 []
  refine ⟨hdone, run_loop_length pc pc_uuid supply msgs 0 [] hdone, ?_⟩
  intro hpan
  obtain ⟨tu, t, err, hmeq, _⟩ := handle_msg_panicked _ _ _ _ _ hpan
  exact hnt tu t hmeq

/-- Witness for C1 (amended) at a concrete engine, mailbox and command. -/
theorem C1_witness :
    (run_loop ok_engine "c1" uuid_supply 0 []
        [.create_offer none, .add_track "t1" "trk"]).2 = true ∧
    (run_loop ok_engine "c1" uuid_supply 0 []
        [.create_offer none, .add_track "t1" "trk"]).1.length
      = ([Msg.create_offer none, Msg.add_track "t1" "trk"] : List Msg).length + 1 ∧
    handle_msg ok_engine "c1" "s0" [] (.create_offer none) ≠ .panicked :=
  C1_amended_loop_survives ok_engine ok_engine "c1" "c1" "s0" uuid_supply
    [.create_offer none, .add_track "t1" "trk"] [] (.create_offer none)
    (fun _ => ⟨"native-sender", rfl⟩)
    (fun _ _ h => Msg.noConfusion h)

/-- C2: when the spawned connection task's engine build fails, the task
sends exactly one `peer_connection_error` message carrying the connection
id and returns without registering the id: the registry state is
untouched, so (the id being fresh) `peer_connection_exists` answers
false, `close` answers `not_found` without change, any command against
the id (here `create_offer`) answers `not_found` with nothing enqueued,
and the task's output contains neither a ready nor a closed Event for the
id. -/
theorem C2_build_failure (r : Resource) (uuid : Id) (tx : MailboxSender)
    (supply : Nat → Id) (mailbox : List Msg)
    (hp : r.poisoned = false)
    (hfresh : r.state.get_peer_connection uuid = none) :
    spawn_rtc_peer_connection none r uuid tx supply mailbox
        = (r, [.peer_connection_error uuid], true) ∧
    peer_connection_exists r uuid = .ok false ∧
    close r uuid = (.err .not_found, r) ∧
    create_offer r uuid false false = (.err .not_found, []) ∧
    Event.peer_connection_ready uuid ∉ [Event.peer_connection_error uuid] ∧
    Event.peer_connection_closed uuid ∉ [Event.peer_connection_error uuid] := by
  have hf : mapGet r.state.peer_connections uuid = none := hfresh
  refine ⟨?_, ?_, ?_, ?_, ?_, ?_⟩
  · simp [spawn_rtc_peer_connection, hp]
  · simp [peer_connection_exists, hp, State.get_peer_connection, hf]
  · simp [close, hp, State.remove_peer_connection, hf]
  · simp [create_offer, hp, State.get_peer_connection, hf]
  · simp
  · simp

/-- Witness for C2 on a freshly initialized resource and id `"c9"`. -/
theorem C2_witness :
    spawn_rtc_peer_connection none fresh_resource "c9" 0 uuid_supply []
        = (fresh_resource, [.peer_connection_error "c9"], true) ∧
    peer_connection_exists fresh_resource "c9" = .ok false ∧
    close fresh_resource "c9" = (.err .not_found, fresh_resource) ∧
    create_offer fresh_resource "c9" false false = (.err .not_found, []) ∧
    Event.peer_connection_ready "c9" ∉ [Event.peer_connection_error "c9"] ∧
    Event.peer_connection_closed "c9" ∉ [Event.peer_connection_error "c9"] :=
  C2_build_failure fresh_resource "c9" 0 uuid_supply [] rfl rfl

/-- C3: `new_peer_connection` with an api id absent from the registry
returns `not_found` synchronously and spawns no task, so no connection id
is handed out and no Event can ever be emitted for the attempt (Events
originate only in the spawned task). -/
theorem C3_unknown_api (r : Resource) (api_uuid uuid : Id)
    (hp : r.poisoned = false)
    (habs : r.state.get_api api_uuid = none) :
    new_peer_connection r api_uuid uuid = (.err .not_found, false) := by
  simp [new_peer_connection, hp, habs]

/-- Witness for C3 on a freshly initialized resource. -/
theorem C3_witness :
    new_peer_connection fresh_resource "no-such-api" "c1" = (.err .not_found, false) :=
  C3_unknown_api fresh_resource "no-such-api" "c1" rfl rfl

/-- C4: for a registered connection id and an input on which the JSON
parser fails, `set_remote_description`, `set_local_description` and
`add_ice_candidate` return `invalid_json` synchronously and hand no
message to any send-task, so nothing ever reaches the Actor's mailbox
for that call and the Actor emits no Event for it. -/
theorem C4_invalid_json (r : Resource) (pc_uuid : Id) (tx : MailboxSender)
    (input : String)
    (parse_session : String → Option SessionDescription)
    (parse_candidate : String → Option CandidateInit)
    (hp : r.poisoned = false)
    (hreg : r.state.get_peer_connection pc_uuid = some tx)
    (hs : parse_session input = none)
    (hc : parse_candidate input = none) :
    set_remote_description r pc_uuid input parse_session = (.err .invalid_json, []) ∧
    set_local_description r pc_uuid input parse_session = (.err .invalid_json, []) ∧
    add_ice_candidate r pc_uuid input parse_candidate = (.err .invalid_json, []) := by
  have hg : mapGet r.state.peer_connections pc_uuid = some tx := hreg
  refine ⟨?_, ?_, ?_⟩ <;>
    simp [set_remote_description, set_local_description, add_ice_candidate,
      State.get_peer_connection, hp, hg, hs, hc]

/-- Witness for C4 on a ready connection and the input `"not json"`. -/
theorem C4_witness :
    set_remote_description ready_resource "c1" "not json" (fun _ => none)
        = (.err .invalid_json, []) ∧
    set_local_description ready_resource "c1" "not json" (fun _ => none)
        = (.err .invalid_json, []) ∧
    add_ice_candidate ready_resource "c1" "not json" (fun _ => none)
        = (.err .invalid_json, []) :=
  C4_invalid_json ready_resource "c1" 0 "not json" (fun _ => none) (fun _ => none)
    rfl rfl rfl rfl

/-- C5: closing an id absent from the registry returns `not_found` and
changes nothing (no crash, no Event); closing a registered id succeeds
and removes the sender entry, so a second close of the same id returns
`not_found` unchanged; and the Actor sends at most one
`peer_connection_closed` for its id — exactly one, as the final
subscriber message after every queued command's Event, when it observes
end-of-stream (a completed run). -/
theorem C5_close_protocol (r : Resource) (pc_uuid : Id) (tx : MailboxSender)
    (pc : EngineConn) (supply : Nat → Id) (msgs : List Msg)
    (hp : r.poisoned = false)
    (hnd : (r.state.peer_connections.map Prod.fst).Nodup) :
    (r.state.get_peer_connection pc_uuid = none →
      close r pc_uuid = (.err .not_found, r)) ∧
    (r.state.get_peer_connection pc_uuid = some tx →
      (close r pc_uuid).1 = .ok () ∧
      close (close r pc_uuid).2 pc_uuid = (.err .not_found, (close r pc_uuid).2)) ∧
    count_closed pc_uuid (run_loop pc pc_uuid supply 0 [] msgs).1 ≤ 1 ∧
    ((run_loop pc pc_uuid supply 0 [] msgs).2 = true →
      count_closed pc_uuid (run_loop pc pc_uuid supply 0 [] msgs).1 = 1 ∧
      (run_loop pc pc_uuid supply 0 [] msgs).1.get? msgs.length
        = some (.peer_connection_closed pc_uuid)) := by
  have hcnt := run_loop_count_closed pc pc_uuid supply msgs 0 []
  refine ⟨?_, ?_, ?_, ?_⟩
  · intro h
    have hg : mapGet r.state.peer_connections pc_uuid = none := h
    simp [close, hp, State.remove_peer_connection, hg]
  · intro h
    have hg : mapGet r.state.peer_connections pc_uuid = some tx := h
    have hdrop : mapGet (mapDrop r.state.peer_connections pc_uuid) pc_uuid = none :=
      mapGet_mapDrop_self _ _ hnd
    constructor
    · simp [close, hp, State.remove_peer_connection, hg]
    · simp [close, hp, State.remove_peer_connection, hg, hdrop]
  · rw [hcnt]
    split <;> omega
  · intro hdone
    refine ⟨?_, run_loop_get_closed pc pc_uuid supply msgs 0 [] hdone⟩
    rw [hcnt, if_pos hdone]

/-- Witness for C5 on a resource holding the ready connection `"c1"`, a
healthy engine and a one-command mailbox. -/
theorem C5_witness :
    (ready_resource.state.get_peer_connection "c1" = none →
      close ready_resource "c1" = (.err .not_found, ready_resource)) ∧
    (ready_resource.state.get_peer_connection "c1" = some 0 →
      (close ready_resource "c1").1 = .ok () ∧
      close (close ready_resource "c1").2 "c1"
        = (.err .not_found, (close ready_resource "c1").2)) ∧
    count_closed "c1" (run_loop ok_engine "c1" uuid_supply 0 [] [.get_stats]).1 ≤ 1 ∧
    ((run_loop ok_engine "c1" uuid_supply 0 [] [.get_stats]).2 = true →
      count_closed "c1" (run_loop ok_engine "c1" uuid_supply 0 [] [.get_stats]).1 = 1 ∧
      (run_loop ok_engine "c1" uuid_supply 0 [] [.get_stats]).1.get?
          ([Msg.get_stats] : List Msg).length
        = some (.peer_connection_closed "c1")) :=
  C5_close_protocol ready_resource "c1" 0 ok_engine uuid_supply [.get_stats]
    rfl (by decide)

/-- C6, counterexample: two commands are submitted ok against the one
ready connection `"c1"` — a CreateOffer first, then a CreateDataChannel —
and each call hands its message to its own spawned send-task.  The
schedule that runs the second send-task before the first is a valid
runtime schedule of those two independent tasks, and under it the
mailbox receives the two commands in reverse submission order and the
Actor emits the two outcome Events in reverse submission order: the
claimed strict submission-order delivery and emission does not hold. -/
theorem C6_counterexample :
    (create_offer ready_resource "c1" false false).1 = .ok () ∧
    (create_data_channel ready_resource "c1" "chat").1 = .ok () ∧
    (create_offer ready_resource "c1" false false).2
      = [.create_offer (some { ice_restart := false, voice_activity_detection := false })] ∧
    (create_data_channel ready_resource "c1" "chat").2
      = [.create_data_channel "chat"] ∧
    valid_schedule [1, 0] 2 ∧
    deliver
        [.create_offer (some { ice_restart := false, voice_activity_detection := false }),
         .create_data_channel "chat"] [1, 0]
      = [.create_data_channel "chat",
         .create_offer (some { ice_restart := false, voice_activity_detection := false })] ∧
    (run_loop ok_engine "c1" uuid_supply 0 []
        [.create_data_channel "chat",
         .create_offer (some { ice_restart := false, voice_activity_detection := false })]).1
      = [.data_channel_created "c1", .offer "c1" "offer-json",
         .peer_connection_closed "c1"] ∧
    ([Event.data_channel_created "c1", Event.offer "c1" "offer-json"]
      ≠ [Event.offer "c1" "offer-json", Event.data_channel_created "c1"]) := by
  refine ⟨rfl, rfl, rfl, rfl, ?_, rfl, rfl, by decide⟩
  show ([1, 0] : List Nat).Perm (List.range 2)
  decide

/-- C6 (amended): the Actor does guarantee FIFO processing of whatever
reaches its mailbox — in a completed run the i-th emitted Event is
exactly the outcome of the i-th delivered command — and the identity
schedule reproduces submission order; but the delivered order is the
runtime's schedule of the independently spawned send-tasks, so
submission order itself is not enforced (see the counterexample). -/
theorem C6_amended_fifo (pc : EngineConn) (uuid : Id) (supply : Nat → Id)
    (pending : List Msg) (sched : List Nat)
    (hdone : (run_loop pc uuid supply 0 [] (deliver pending sched)).2 = true) :
    ((run_loop pc uuid supply 0 [] (deliver pending sched)).1.length
        = (deliver pending sched).length + 1) ∧
    (∀ i, i < (deliver pending sched).length →
      (run_loop pc uuid supply 0 [] (deliver pending sched)).1.get? i
        = ((deliver pending sched).get? i).bind (step_event pc uuid (supply i))) ∧
    deliver pending (List.range pending.length) = pending := by
  refine ⟨run_loop_length pc uuid supply (deliver pending sched) 0 [] hdone, ?_,
    deliver_range pending⟩
  intro i hi
  simpa using run_loop_get pc uuid supply (deliver pending sched) 0 [] hdone i hi

/-- Witness for C6 (amended) at the concrete reversed schedule. -/
theorem C6_witness :
    ((run_loop ok_engine "c1" uuid_supply 0 []
        (deliver [Msg.get_stats, Msg.create_data_channel "chat"] [1, 0])).1.length
      = (deliver [Msg.get_stats, Msg.create_data_channel "chat"] [1, 0]).length + 1) ∧
    (∀ i, i < (deliver [Msg.get_stats, Msg.create_data_channel "chat"] [1, 0]).length →
      (run_loop ok_engine "c1" uuid_supply 0 []
          (deliver [Msg.get_stats, Msg.create_data_channel "chat"] [1, 0])).1.get? i
        = ((deliver [Msg.get_stats, Msg.create_data_channel "chat"] [1, 0]).get? i).bind
            (step_event ok_engine "c1" (uuid_supply i))) ∧
    deliver [Msg.get_stats, Msg.create_data_channel "chat"]
        (List.range ([Msg.get_stats, Msg.create_data_channel "chat"] : List Msg).length)
      = [Msg.get_stats, Msg.create_data_channel "chat"] :=
  C6_amended_fifo ok_engine "c1" uuid_supply
    [Msg.get_stats, Msg.create_data_channel "chat"] [1, 0] rfl

/-- C7: a successful `new_api` consumes both the media engine and the
interceptor registry — immediately afterwards `media_engine_exists m`
answers `Ok(false)` and `registry_exists r` answers `Ok(false)` — while
the new Api entry persists under the returned id. -/
theorem C7_new_api_consumes (r : Resource) (m_uuid r_uuid api_id : Id)
    (m : MediaEngine)
    (hp : r.poisoned = false)
    (hm : r.state.get_media_engine m_uuid = some m)
    (hr : r.state.get_registry r_uuid = some ())
    (hmnd : (r.state.media_engines.map Prod.fst).Nodup)
    (hrnd : (r.state.registries.map Prod.fst).Nodup) :
    (new_api r m_uuid r_uuid api_id).1 = .ok api_id ∧
    media_engine_exists (new_api r m_uuid r_uuid api_id).2 m_uuid = .ok false ∧
    registry_exists (new_api r m_uuid r_uuid api_id).2 r_uuid = .ok false ∧
    (new_api r m_uuid r_uuid api_id).2.state.get_api api_id
      = some { media_engine := m, registry := () } := by
  have hgm : mapGet r.state.media_engines m_uuid = some m := hm
  have hgr : mapGet r.state.registries r_uuid = some () := hr
  have hdm : mapGet (mapDrop r.state.media_engines m_uuid) m_uuid = none :=
    mapGet_mapDrop_self _ _ hmnd
  have hdr : mapGet (mapDrop r.state.registries r_uuid) r_uuid = none :=
    mapGet_mapDrop_self _ _ hrnd
  refine ⟨?_, ?_, ?_, ?_⟩ <;>
    simp [new_api, hp, State.remove_media_engine, State.remove_registry,
      State.add_api, State.get_media_engine, State.get_registry, State.get_api,
      media_engine_exists, registry_exists, hgm, hgr, hdm, hdr, mapGet_mapPut_self]

/-- Witness for C7 on the staged resource. -/
theorem C7_witness :
    (new_api staged_resource "m" "r0" "api1").1 = .ok "api1" ∧
    media_engine_exists (new_api staged_resource "m" "r0" "api1").2 "m" = .ok false ∧
    registry_exists (new_api staged_resource "m" "r0" "api1").2 "r0" = .ok false ∧
    (new_api staged_resource "m" "r0" "api1").2.state.get_api "api1"
      = some { media_engine := good_engine, registry := () } :=
  C7_new_api_consumes staged_resource "m" "r0" "api1" good_engine
    rfl rfl rfl (by decide) (by decide)

/-- C8, counterexample: `new_registry` does not make the media engine
unusable for a second registry build: with the engine `"m"` registered, a
first `new_registry` succeeds and a second `new_registry` against the
same engine id succeeds as well, so it is false that `new_registry(m)`
succeeds at most once before `m` becomes unusable via this path. -/
theorem C8_counterexample :
    (new_registry staged_resource "m" "r1").1 = .ok "r1" ∧
    (new_registry (new_registry staged_resource "m" "r1").2 "m" "r2").1 = .ok "r2" :=
  ⟨rfl, rfl⟩

/-- C8 (amended): `new_registry` borrows the media engine without
consuming it — a successful build leaves the engine registered and
another build from the same engine id succeeds again; the engine becomes
unusable for registry builds only once `new_api` has consumed it, after
which `new_registry` returns `not_found`. -/
theorem C8_amended_engine_not_consumed (r : Resource)
    (m_uuid reg1 reg2 reg3 r_uuid api_id : Id) (m : MediaEngine)
    (hp : r.poisoned = false)
    (hm : r.state.get_media_engine m_uuid = some m)
    (hw : m.wire_ok = true)
    (hr : r.state.get_registry r_uuid = some ())
    (hmnd : (r.state.media_engines.map Prod.fst).Nodup) :
    (new_registry r m_uuid reg1).1 = .ok reg1 ∧
    (new_registry r m_uuid reg1).2.state.get_media_engine m_uuid = some m ∧
    (new_registry (new_registry r m_uuid reg1).2 m_uuid reg2).1 = .ok reg2 ∧
    (new_registry (new_api r m_uuid r_uuid api_id).2 m_uuid reg3).1
      = .err .not_found := by
  have hgm : mapGet r.state.media_engines m_uuid = some m := hm
  have hgr : mapGet r.state.registries r_uuid = some () := hr
  have hdm : mapGet (mapDrop r.state.media_engines m_uuid) m_uuid = none :=
    mapGet_mapDrop_self _ _ hmnd
  refine ⟨?_, ?_, ?_, ?_⟩ <;>
    simp [new_registry, new_api, hp, State.get_media_engine_mut,
      State.get_media_engine, State.add_registry, State.remove_media_engine,
      State.remove_registry, State.add_api, hgm, hgr, hdm, hw]

/-- Witness for C8 (amended) on the staged resource. -/
theorem C8_witness :
    (new_registry staged_resource "m" "ra").1 = .ok "ra" ∧
    (new_registry staged_resource "m" "ra").2.state.get_media_engine "m"
      = some good_engine ∧
    (new_registry (new_registry staged_resource "m" "ra").2 "m" "rb").1 = .ok "rb" ∧
    (new_registry (new_api staged_resource "m" "r0" "api1").2 "m" "rc").1
      = .err .not_found :=
  C8_amended_engine_not_consumed staged_resource "m" "ra" "rb" "rc" "r0" "api1"
    good_engine rfl rfl rfl rfl (by decide)

/-- C9, counterexample: it is not the case that every host-facing
operation reports `lock_fail` when the registry guard is poisoned:
`new_peer_connection` takes the lock with `.unwrap()`, so on a poisoned
resource it panics, which is not the `lock_fail` error return. -/
theorem C9_counterexample :
    new_peer_connection poisoned_resource "a1" "c1" = (.panicked, false) ∧
    (NifResult.panicked : NifResult Id) ≠ .err .lock_fail :=
  ⟨rfl, by decide⟩

/-- C9 (amended): on a poisoned registry guard every host-facing
operation except `new_peer_connection` returns the `lock_fail` error
rather than blocking or panicking; `new_peer_connection` alone unwraps
the lock and panics (see the counterexample). -/
theorem C9_amended_lock_fail (r : Resource) (u1 u2 u3 : Id)
    (input lbl : String) (b1 b2 : Bool) (m : MediaEngine)
    (parse_session : String → Option SessionDescription)
    (parse_candidate : String → Option CandidateInit)
    (hp : r.poisoned = true) :
    get_config r = .err .lock_fail ∧
    (new_media_engine r m u1).1 = .err .lock_fail ∧
    (new_registry r u1 u2).1 = .err .lock_fail ∧
    (new_api r u1 u2 u3).1 = .err .lock_fail ∧
    media_engine_exists r u1 = .err .lock_fail ∧
    peer_connection_exists r u1 = .err .lock_fail ∧
    registry_exists r u1 = .err .lock_fail ∧
    (close r u1).1 = .err .lock_fail ∧
    (add_ice_candidate r u1 input parse_candidate).1 = .err .lock_fail ∧
    (add_track r u1 u2).1 = .err .lock_fail ∧
    (create_answer r u1 b1).1 = .err .lock_fail ∧
    (create_data_channel r u1 lbl).1 = .err .lock_fail ∧
    (create_offer r u1 b1 b2).1 = .err .lock_fail ∧
    (get_current_local_description r u1).1 = .err .lock_fail ∧
    (get_current_remote_description r u1).1 = .err .lock_fail ∧
    (get_local_description r u1).1 = .err .lock_fail ∧
    (get_remote_description r u1).1 = .err .lock_fail ∧
    (get_pending_local_description r u1).1 = .err .lock_fail ∧
    (get_pending_remote_description r u1).1 = .err .lock_fail ∧
    (get_stats r u1).1 = .err .lock_fail ∧
    (set_local_description r u1 input parse_session).1 = .err .lock_fail ∧
    (set_remote_description r u1 input parse_session).1 = .err .lock_fail ∧
    (ice_connection_state r u1).1 = .err .lock_fail ∧
    (ice_gathering_state r u1).1 = .err .lock_fail ∧
    (signaling_state r u1).1 = .err .lock_fail ∧
    (connection_state r u1).1 = .err .lock_fail ∧
    (new_peer_connection r u1 u2).1 = .panicked := by
  simp [get_config, new_media_engine, new_registry, new_api, media_engine_exists,
    peer_connection_exists, registry_exists, close, add_ice_candidate, add_track,
    create_answer, create_data_channel, create_offer, send_plain,
    get_current_local_description, get_current_remote_description,
    get_local_description, get_remote_description, get_pending_local_description,
    get_pending_remote_description, get_stats, set_local_description,
    set_remote_description, ice_connection_state, ice_gathering_state,
    signaling_state, connection_state, new_peer_connection, hp]

/-- Witness for C9 (amended) on the poisoned resource. -/
theorem C9_witness :
    get_config poisoned_resource = .err .lock_fail ∧
    (new_media_engine poisoned_resource good_engine "m1").1 = .err .lock_fail ∧
    (new_registry poisoned_resource "m1" "r1").1 = .err .lock_fail ∧
    (new_api poisoned_resource "m1" "r1" "a1").1 = .err .lock_fail ∧
    media_engine_exists poisoned_resource "m1" = .err .lock_fail ∧
    peer_connection_exists poisoned_resource "m1" = .err .lock_fail ∧
    registry_exists poisoned_resource "m1" = .err .lock_fail ∧
    (close poisoned_resource "m1").1 = .err .lock_fail ∧
    (add_ice_candidate poisoned_resource "m1" "x" (fun _ => none)).1 = .err .lock_fail ∧
    (add_track poisoned_resource "m1" "r1").1 = .err .lock_fail ∧
    (create_answer poisoned_resource "m1" true).1 = .err .lock_fail ∧
    (create_data_channel poisoned_resource "m1" "lbl").1 = .err .lock_fail ∧
    (create_offer poisoned_resource "m1" true false).1 = .err .lock_fail ∧
    (get_current_local_description poisoned_resource "m1").1 = .err .lock_fail ∧
    (get_current_remote_description poisoned_resource "m1").1 = .err .lock_fail ∧
    (get_local_description poisoned_resource "m1").1 = .err .lock_fail ∧
    (get_remote_description poisoned_resource "m1").1 = .err .lock_fail ∧
    (get_pending_local_description poisoned_resource "m1").1 = .err .lock_fail ∧
    (get_pending_remote_description poisoned_resource "m1").1 = .err .lock_fail ∧
    (get_stats poisoned_resource "m1").1 = .err .lock_fail ∧
    (set_local_description poisoned_resource "m1" "x" (fun _ => none)).1
      = .err .lock_fail ∧
    (set_remote_description poisoned_resource "m1" "x" (fun _ => none)).1
      = .err .lock_fail ∧
    (ice_connection_state poisoned_resource "m1").1 = .err .lock_fail ∧
    (ice_gathering_state poisoned_resource "m1").1 = .err .lock_fail ∧
    (signaling_state poisoned_resource "m1").1 = .err .lock_fail ∧
    (connection_state poisoned_resource "m1").1 = .err .lock_fail ∧
    (new_peer_connection poisoned_resource "m1" "c1").1 = .panicked :=
  C9_amended_lock_fail poisoned_resource "m1" "r1" "a1" "x" "lbl" true false
    good_engine (fun _ => none) (fun _ => none) rfl

/-- C10: `new_api` is not atomic on failure: called with a present media
engine id and an absent interceptor-registry id, it returns `not_found`,
yet the engine has already been removed — `media_engine_exists` then
answers `Ok(false)` — and no Api entry was added, so the engine is lost
without any Api having been created. -/
theorem C10_new_api_loses_engine (r : Resource) (m_uuid r_uuid api_id : Id)
    (m : MediaEngine)
    (hp : r.poisoned = false)
    (hm : r.state.get_media_engine m_uuid = some m)
    (hr : r.state.get_registry r_uuid = none)
    (hmnd : (r.state.media_engines.map Prod.fst).Nodup) :
    (new_api r m_uuid r_uuid api_id).1 = .err .not_found ∧
    media_engine_exists (new_api r m_uuid r_uuid api_id).2 m_uuid = .ok false ∧
    (new_api r m_uuid r_uuid api_id).2.state.apis = r.state.apis := by
  have hgm : mapGet r.state.media_engines m_uuid = some m := hm
  have hgr : mapGet r.state.registries r_uuid = none := hr
  have hdm : mapGet (mapDrop r.state.media_engines m_uuid) m_uuid = none :=
    mapGet_mapDrop_self _ _ hmnd
  refine ⟨?_, ?_, ?_⟩ <;>
    simp [new_api, hp, State.remove_media_engine, State.remove_registry,
      State.get_media_engine, media_engine_exists, hgm, hgr, hdm]

/-- Witness for C10 on a resource holding only the engine `"m"`. -/
theorem C10_witness :
    (new_api engine_only_resource "m" "nope" "api1").1 = .err .not_found ∧
    media_engine_exists (new_api engine_only_resource "m" "nope" "api1").2 "m"
      = .ok false ∧
    (new_api engine_only_resource "m" "nope" "api1").2.state.apis
      = engine_only_resource.state.apis :=
  C10_new_api_loses_engine engine_only_resource "m" "nope" "api1" good_engine
    rfl rfl rfl (by decide)

end Specter
